import Mathlib

/-
Verification development for the loan-processing workflow orchestrator
(`workflow.py`, `agent.py`, `server.py`, `fakebank/main.py`).

Python floats are modelled as rationals (ℚ); the inputs appearing in the
claims are exact in both representations. Agent (LLM) calls are external
non-deterministic effects: they are modelled by an oracle `Oracle : Nat →
AgentResult` indexed by the number of decision-activity calls made so far,
and every call made is recorded (history passed + prompt) so that claims
about "no new decision-activity call" are decidable on the model.
-/

namespace LoanAgent

/-- Structured loan application information (agent.py, class LoanApplication).
`application_id`, `applicant_name` are strings; the three numeric fields are
declared with pydantic `gt=0` constraints checked by `model_validate`. -/
structure LoanApplication where
  application_id : String
  applicant_name : String
  annual_income : ℚ
  requested_loan_amount : ℚ
  property_value : ℚ
deriving DecidableEq, Repr

/-- Raw payload before pydantic validation: same shape, constraints unchecked. -/
structure RawPayload where
  application_id : String
  applicant_name : String
  annual_income : ℚ
  requested_loan_amount : ℚ
  property_value : ℚ
deriving DecidableEq, Repr

/-- pydantic `LoanApplication.model_validate`: each of the three numeric
fields must be strictly positive (`Field(..., gt=0)`); on failure a
ValidationError is raised (modelled as `Except.error`). -/
def model_validate (p : RawPayload) : Except String LoanApplication :=
  if 0 < p.annual_income ∧ 0 < p.requested_loan_amount ∧ 0 < p.property_value then
    .ok ⟨p.application_id, p.applicant_name, p.annual_income,
         p.requested_loan_amount, p.property_value⟩
  else
    .error "ValidationError: numeric fields must be greater than 0"

/-- agent.py, computed field `loan_to_value_ratio`:
`requested_loan_amount / property_value`. -/
def LoanApplication.loan_to_value_ratio (a : LoanApplication) : ℚ :=
  a.requested_loan_amount / a.property_value

/-- agent.py, computed field `debt_to_income_ratio`:
`(requested_loan_amount * 0.005) / (annual_income / 12)`. -/
def LoanApplication.debt_to_income_ratio (a : LoanApplication) : ℚ :=
  let monthly_income := a.annual_income / 12
  let estimated_monthly_payment := a.requested_loan_amount * (5 / 1000)
  estimated_monthly_payment / monthly_income

/-- The three recommendation literals of `UnderwritingRecommendation`. -/
inductive RecKind where
  | approve
  | review
  | decline
deriving DecidableEq, Repr

/-- Agent-authored underwriting recommendation (agent.py). -/
structure UnderwritingRecommendation where
  recommendation : RecKind
  approved_amount : Option ℚ := none
  risk_factors : Option (List String) := none
  requested_docs : List String := []
  additional_questions : List String := []
  summary : Option String := none
deriving DecidableEq, Repr

/-- agent.py, property `done`: recommendation in ["approve", "decline"]. -/
def UnderwritingRecommendation.done (r : UnderwritingRecommendation) : Bool :=
  [RecKind.approve, RecKind.decline].contains r.recommendation

/-- The two final-decision literals of `FinalResult`. -/
inductive FinalKind where
  | approved
  | rejected
deriving DecidableEq, Repr

/-- Final loan application result (agent.py, class FinalResult). -/
structure FinalResult where
  application_id : String
  final_decision : FinalKind
  reason : String
  approved_amount : Option ℚ := none
deriving DecidableEq, Repr

/-- The agent's structured output type is the union
`[FinalResult, UnderwritingRecommendation]` (agent.py, underwriter_agent). -/
inductive AgentOutput where
  | recOut (r : UnderwritingRecommendation)
  | finOut (f : FinalResult)
deriving DecidableEq, Repr

end LoanAgent

namespace FakeBank

/-- fakebank/main.py, class Transaction. -/
structure Transaction where
  kind : String
  description : String
  amount : ℚ
deriving DecidableEq, Repr

/-- fakebank/main.py, class Statement. -/
structure Statement where
  account_id : String
  account_name : String
  salary : ℚ
  expenses : ℚ
  balance : ℚ
  transactions : List Transaction
deriving DecidableEq, Repr

/-- fakebank/main.py, the `_fake_statements` table. -/
def fake_statements : List (String × Statement) :=
  [ ("123-456",
     { account_id := "acc1"
       account_name := "Tao"
       salary := 12500
       expenses := 3200
       balance := 8100
       transactions :=
         [ ⟨"salary", "Monthly salary", 12500⟩
         , ⟨"expense", "Office lease", -1500⟩
         , ⟨"expense", "Cloud services", -900⟩
         , ⟨"expense", "Team lunch", -300⟩
         , ⟨"expense", "Utilities", -500⟩ ] })
  , ("654-321",
     { account_id := "acc2"
       account_name := "Bob"
       salary := 3500
       expenses := 4100
       balance := -600
       transactions :=
         [ ⟨"salary", "Monthly revenue payout", 3500⟩
         , ⟨"expense", "Supply restock", -1800⟩
         , ⟨"expense", "Staff wages", -1500⟩
         , ⟨"expense", "Utility bills", -500⟩
         , ⟨"expense", "Local advertising", -300⟩ ] }) ]

/-- The HTTP response of the bank service as seen by the client: either a
2xx with a statement body, or a non-2xx status (urllib raises HTTPError). -/
inductive HttpResponse where
  | ok2xx (body : Statement)
  | httpError (code : Nat) (reason : String)
deriving DecidableEq, Repr

/-- fakebank/main.py, `get_statement`: 404 for an unknown account, else the
statement from the table. -/
def get_statement (account_id : String) : HttpResponse :=
  match (fake_statements.lookup account_id) with
  | none => .httpError 404 "Not Found"
  | some st => .ok2xx st

/-- Result dict of the `fetch_bank_statement` tool (agent.py). -/
structure BankLookupResult where
  account_number : String
  status : String
  error : Option String := none
  statement : Option Statement := none
deriving DecidableEq, Repr

/-- agent.py, tool `fetch_bank_statement`, as a function of the HTTP
response it receives: an HTTPError is caught and turned into a
`{status: "error", error: ...}` dict; a 2xx body is returned as
`{status: "ok", statement: ...}`. -/
def fetch_bank_statement (account_number : String) (resp : HttpResponse) :
    BankLookupResult :=
  match resp with
  | .httpError code reason =>
      { account_number := account_number
        status := "error"
        error := some ("FakeBank returned HTTP " ++ toString code ++ ": " ++ reason) }
  | .ok2xx body =>
      { account_number := account_number
        status := "ok"
        statement := some body }

end FakeBank

namespace LoanAgent

/-- User prompts sent to the decision agent, one constructor per call site
in workflow.py: the application JSON (start_processing, line 37), the
bank-account evidence prompt (supply_bank_account, line 43), and the
human-decision prompt (supply_bank_account, line 53). -/
inductive Prompt where
  | applicationJson (a : LoanApplication)
  | bankAccount (account_number : String)
  | humanDecision (decision : String)
deriving DecidableEq, Repr

/-- Result of one `TemporalAgent.run` call: its structured `output` and
`all_messages()`, the full conversation history after the call. -/
structure AgentResult where
  output : AgentOutput
  messages : List String
deriving DecidableEq, Repr

/-- External non-determinism of the decision agent: the result of the n-th
decision-activity call (0-indexed over the whole system). -/
def Oracle : Type := Nat → AgentResult

/-- Record of one decision-activity invocation: the message history passed
in (`message_history=` argument; `none` when omitted) and the user prompt. -/
structure AgentCall where
  history : Option (List String)
  prompt : Prompt
deriving DecidableEq, Repr

/-- Mutable state of one LoanProcessingWorkflow run (workflow.py,
`__init__`), plus the run-method bookkeeping:
* `parked` counts `supply_bank_account` handlers suspended at the
  `workflow.wait_condition(lambda: self._human_decision != None)` point;
* `completed`/`result` model the `run` method: it waits until
  `_final_decision is not None` and then returns it, completing the
  workflow. -/
structure Machine where
  application : Option LoanApplication := none
  final_decision : Option AgentOutput := none
  human_decision : Option String := none
  bank_account_number : Option String := none
  message_history : Option (List String) := none
  parked : Nat := 0
  completed : Bool := false
  result : Option AgentOutput := none
deriving DecidableEq, Repr

/-- A freshly constructed workflow (workflow.py `__init__`): every field
unset. -/
def Machine.init : Machine := {}

/-- Scheduler step for the `run` coroutine: whenever `_final_decision`
becomes non-None its wait_condition holds, `run` returns that value and the
workflow completes. -/
def settle (m : Machine) : Machine :=
  if m.final_decision.isSome ∧ m.completed = false then
    { m with completed := true, result := m.final_decision }
  else m

/-- workflow.py, query `status`: builds
`{"application_id": self._application.application_id, "decision": ...}`.
When `_application` is still None, `self._application.application_id`
raises AttributeError (modelled as `Except.error`); the `decision` field
has a None-guard (`... if self._final_decision else None`), the
`application_id` field does not. -/
structure StatusSnapshot where
  application_id : String
  decision : Option AgentOutput
deriving DecidableEq, Repr

/-- workflow.py, query `status`, lines 66-71. -/
def Machine.status (m : Machine) : Except String StatusSnapshot :=
  match m.application with
  | none => .error "AttributeError: NoneType object has no attribute application_id"
  | some a => .ok ⟨a.application_id, m.final_decision⟩

/-- System state for one application identifier: the (at most one) workflow
attached to that identifier, how many workflow runs were ever started for
it, and the log of every decision-activity call made. -/
structure Sys where
  wf : Option Machine := none
  runsStarted : Nat := 0
  calls : List AgentCall := []
deriving DecidableEq, Repr

/-- Initial system state: no workflow instance exists yet. -/
def Sys.init : Sys := {}

/-- Commands the transport server issues against one application identifier
(server.py tools and the approval route). -/
inductive Cmd where
  | startProcessing (payload : RawPayload)
  | supplyBankAccount (account_number : String)
  | signalHuman (decision : String)
  | queryStatus
deriving DecidableEq, Repr

deriving instance DecidableEq for Except

/-- What the issuer of a command observes. `suspended` is an update handler
parked at a wait_condition (its caller is still blocked); `ack` is the
fire-and-forget signal acknowledgement carrying, for bookkeeping, the
result of the update it released (if any). -/
inductive Response where
  | updateResult (o : AgentOutput)
  | err (msg : String)
  | suspended
  | ack (released : Option AgentOutput)
  | queryResult (q : Except String StatusSnapshot)
deriving DecidableEq, Repr

/-- One decision-activity call: consult the oracle at the current call
count and log the call (history passed, prompt). -/
def callAgent (or : Oracle) (s : Sys) (hist : Option (List String))
    (p : Prompt) : AgentResult × Sys :=
  (or s.calls.length, { s with calls := s.calls ++ [⟨hist, p⟩] })

/-- server.py `start_loan_application` + workflow.py `start_processing`.
The server builds the `LoanApplication` BEFORE any Temporal call (lines
62-68, outside the try), so a validation failure creates no instance. On
success, `execute_update_with_start_workflow` with
`WorkflowIDConflictPolicy.USE_EXISTING` attaches to a running workflow with
this identifier; if the identifier is free, or its previous run is closed
(conflict policy applies only to running workflows; the default reuse
policy permits a new run), a fresh run is started. The `start_processing`
handler then re-validates the payload, stores the application, makes one
decision-activity call with the application JSON as prompt and no message
history, stores the resulting history, and returns the output. -/
def applyStart (or : Oracle) (s : Sys) (p : RawPayload) : Sys × Response :=
  match model_validate p with
  | .error e => (s, .err e)
  | .ok _ =>
    let resolved : Sys × Machine :=
      match s.wf with
      | some m =>
        if m.completed then
          ({ s with runsStarted := s.runsStarted + 1 }, Machine.init)
        else (s, m)
      | none => ({ s with runsStarted := s.runsStarted + 1 }, Machine.init)
    let s1 := resolved.1
    let m := resolved.2
    match model_validate p with
    | .error e => ({ s1 with wf := some m },
                   .err ("ValueError: Invalid loan application data: " ++ e))
    | .ok a =>
      let m1 := { m with application := some a }
      let cr := callAgent or s1 none (.applicationJson a)
      let m2 := settle { m1 with message_history := some cr.1.messages }
      ({ cr.2 with wf := some m2 }, .updateResult cr.1.output)

/-- server.py `supply_bank_account` + workflow.py `supply_bank_account`.
Requires an existing, still-running workflow (an update on a missing or
closed workflow fails and the server returns an `update_failed` envelope).
The handler makes one decision-activity call folding the bank-account
evidence prompt into the stored message history and updates the history;
it then waits on `self._human_decision != None`: if no decision is
buffered the handler parks (caller stays blocked), otherwise it
immediately makes one more decision-activity call with the human-decision
prompt, records the output as `_final_decision` (history is NOT updated by
this second call) and returns the output; the `run` method then completes. -/
def applySupply (or : Oracle) (s : Sys) (acct : String) : Sys × Response :=
  match s.wf with
  | none => (s, .err "NotFoundError: workflow not found")
  | some m =>
    if m.completed then (s, .err "update_failed: workflow execution already completed")
    else
      let cr1 := callAgent or s m.message_history (.bankAccount acct)
      let m1 := { m with message_history := some cr1.1.messages }
      match m1.human_decision with
      | none =>
        ({ cr1.2 with wf := some { m1 with parked := m1.parked + 1 } }, .suspended)
      | some d =>
        let cr2 := callAgent or cr1.2 m1.message_history (.humanDecision d)
        let m2 := settle { m1 with final_decision := some cr2.1.output }
        ({ cr2.2 with wf := some m2 }, .updateResult cr2.1.output)

/-- server.py route `approve_application` + workflow.py signal
`receive_human_decision`. The handler body is exactly
`self._human_decision = decision`: it overwrites unconditionally and
validates nothing. Setting the decision makes the wait_condition of a
parked `supply_bank_account` handler true; the scheduler resumes it, it
makes the final decision-activity call, records `_final_decision`, and the
workflow completes (`run` returns), abandoning any other parked handler.
A signal to a missing or already-completed workflow fails at the client
and changes nothing. -/
def applySignal (or : Oracle) (s : Sys) (d : String) : Sys × Response :=
  match s.wf with
  | none => (s, .err "NotFoundError: workflow not found")
  | some m =>
    if m.completed then (s, .err "NotFoundError: workflow execution already completed")
    else
      let m1 := { m with human_decision := some d }
      if m1.parked = 0 then
        ({ s with wf := some m1 }, .ack none)
      else
        let cr := callAgent or s m1.message_history (.humanDecision d)
        let m2 := settle { m1 with final_decision := some cr.1.output,
                                   parked := m1.parked - 1 }
        ({ cr.2 with wf := some m2 }, .ack (some cr.1.output))

/-- server.py `get_application_status` + workflow.py query `status`.
Queries never invoke activities and never mutate state; a query against a
missing identifier fails at the client (the server returns a
`query_failed` envelope). -/
def applyQuery (s : Sys) : Sys × Response :=
  match s.wf with
  | none => (s, .err "query_failed: workflow not found")
  | some m => (s, .queryResult m.status)

/-- Serialized per-instance command application (spec §5: exactly one
command at a time per Workflow Instance, in arrival order). -/
def applyCmd (or : Oracle) (s : Sys) : Cmd → Sys × Response
  | .startProcessing p => applyStart or s p
  | .supplyBankAccount acct => applySupply or s acct
  | .signalHuman d => applySignal or s d
  | .queryStatus => applyQuery s

/-- Run a list of commands in order, collecting each command's response. -/
def runTrace (or : Oracle) (s : Sys) : List Cmd → Sys × List Response
  | [] => (s, [])
  | c :: cs =>
    let sr := applyCmd or s c
    let rest := runTrace or sr.1 cs
    (rest.1, sr.2 :: rest.2)

/-- System states reachable from `Sys.init` under a fixed oracle by any
command sequence. -/
inductive Reachable (or : Oracle) : Sys → Prop where
  | init : Reachable or Sys.init
  | step {s : Sys} (c : Cmd) : Reachable or s → Reachable or (applyCmd or s c).1

end LoanAgent

namespace LoanAgent

/-- Scenario-A application payload (spec §8): income 150000, requested
300000, property 400000. -/
def payloadA : RawPayload :=
  { application_id := "APP_1"
    applicant_name := "Tao"
    annual_income := 150000
    requested_loan_amount := 300000
    property_value := 400000 }

/-- An invalid payload: annual income is not strictly positive. -/
def payloadBad : RawPayload :=
  { application_id := "APP_2"
    applicant_name := "Bob"
    annual_income := 0
    requested_loan_amount := 300000
    property_value := 310000 }

/-- A concrete `review` recommendation asking for the account number. -/
def recReview : UnderwritingRecommendation :=
  { recommendation := .review
    additional_questions := ["Please provide your bank account number"] }

/-- A concrete follow-up recommendation after the bank evidence. -/
def recFollowUp : UnderwritingRecommendation :=
  { recommendation := .review
    summary := some "Evidence received, escalating to human underwriter" }

/-- A concrete approved final result. -/
def finApproved : FinalResult :=
  { application_id := "APP_1"
    final_decision := .approved
    reason := "Approved by human underwriter"
    approved_amount := some 300000 }

/-- A concrete deterministic oracle used by witnesses and counterexamples:
call 0 returns the review recommendation, call 1 the follow-up, call 2 the
final result, later calls the review recommendation again. -/
def oracleA : Oracle := fun n =>
  match n with
  | 0 => ⟨.recOut recReview, ["sys", "app", "rec0"]⟩
  | 1 => ⟨.recOut recFollowUp, ["sys", "app", "rec0", "bank", "rec1"]⟩
  | 2 => ⟨.finOut finApproved, ["sys", "app", "rec0", "bank", "rec1", "human", "fin"]⟩
  | _ => ⟨.recOut recReview, ["again"]⟩

end LoanAgent

namespace LoanAgent

/-- The validated Scenario-A application. -/
def appA : LoanApplication :=
  { application_id := "APP_1"
    applicant_name := "Tao"
    annual_income := 150000
    requested_loan_amount := 300000
    property_value := 400000 }

/-- Full Scenario-A command trace followed by a repeated StartOrUpdate. -/
def traceRepeatStart : List Cmd :=
  [ .startProcessing payloadA
  , .supplyBankAccount "123-456"
  , .signalHuman "approve"
  , .startProcessing payloadA ]

/-- Trace that queries the status while `supply_bank_account` is suspended
waiting for the human decision. -/
def traceQueryWhileSuspended : List Cmd :=
  [ .startProcessing payloadA
  , .supplyBankAccount "123-456"
  , .queryStatus ]

/-- System state after one successful `StartOrUpdate` of Scenario A. -/
def sysStarted : Sys :=
  (runTrace oracleA Sys.init [.startProcessing payloadA]).1

/-- The machine held by `sysStarted`. -/
def mStarted : Machine :=
  { application := some appA, message_history := some ["sys", "app", "rec0"] }

/-- System state with the `supply_bank_account` update suspended at the
human-decision wait. -/
def sysSuspended : Sys :=
  (runTrace oracleA Sys.init
    [.startProcessing payloadA, .supplyBankAccount "123-456"]).1

/-- The machine held by `sysSuspended`: update parked, no final decision. -/
def mSuspended : Machine :=
  { application := some appA
    message_history := some ["sys", "app", "rec0", "bank", "rec1"]
    parked := 1 }

/-- System state after a start followed by an early human-decision signal
(no supply update in flight yet: the signal is buffered). -/
def sysSignalled : Sys :=
  (runTrace oracleA Sys.init
    [.startProcessing payloadA, .signalHuman "approve"]).1

/-- The machine held by `sysSignalled`: buffered decision, nothing parked. -/
def mSignalled : Machine :=
  { application := some appA
    human_decision := some "approve"
    message_history := some ["sys", "app", "rec0"] }

/-- System state after the full Scenario-A run (start, supply, signal):
the workflow is completed with the final result recorded. -/
def sysFinal : Sys :=
  (runTrace oracleA Sys.init
    [.startProcessing payloadA, .supplyBankAccount "123-456",
     .signalHuman "approve"]).1

/-- The machine held by `sysFinal`. -/
def mFinal : Machine :=
  { application := some appA
    final_decision := some (.finOut finApproved)
    human_decision := some "approve"
    message_history := some ["sys", "app", "rec0", "bank", "rec1"]
    parked := 0
    completed := true
    result := some (.finOut finApproved) }

/-- Per-machine invariant: the workflow completes exactly when
`_final_decision` is set; `run`'s return value is exactly that decision;
and a set `_final_decision` presupposes a received human decision that was
folded into a decision-activity call. -/
def MInv (s : Sys) (m : Machine) : Prop :=
  (m.completed = true ↔ m.final_decision.isSome = true)
  ∧ (m.completed = true → m.result = m.final_decision)
  ∧ (∀ v, m.final_decision = some v →
      ∃ d, m.human_decision = some d
        ∧ ∃ hist, (⟨hist, .humanDecision d⟩ : AgentCall) ∈ s.calls)

/-- System invariant: `MInv` holds of the attached machine, if any. -/
def Inv (s : Sys) : Prop := ∀ m, s.wf = some m → MInv s m

end LoanAgent

namespace LoanAgent

/-- C8: for every payload accepted by validation, the derived ratios
satisfy `loan_to_value = requested_loan_amount / property_value` and
`debt_to_income = (requested_loan_amount * 0.005) / (annual_income / 12)`
exactly; on the Scenario-A payload (income 150000, requested 300000,
property 400000) they evaluate to 0.75 and 0.12. -/
theorem C8_derived_ratios (p : RawPayload) (a : LoanApplication)
    (hv : model_validate p = .ok a) :
    a.loan_to_value_ratio = a.requested_loan_amount / a.property_value
    ∧ a.debt_to_income_ratio
        = (a.requested_loan_amount * (5 / 1000)) / (a.annual_income / 12)
    ∧ (p = payloadA →
        a.loan_to_value_ratio = 0.75 ∧ a.debt_to_income_ratio = 0.12) := by
  refine ⟨rfl, rfl, ?_⟩
  intro hp
  subst hp
  have h2 : model_validate payloadA = .ok appA := by decide
  have ha : appA = a := by
    have h3 := h2.symm.trans hv
    exact Except.ok.inj h3
  subst ha
  constructor
  · norm_num [appA, LoanApplication.loan_to_value_ratio]
  · norm_num [appA, LoanApplication.debt_to_income_ratio]

/-- C8 witness: the theorem applied to the Scenario-A payload. -/
theorem C8_derived_ratios_witness :
    appA.loan_to_value_ratio = 0.75 ∧ appA.debt_to_income_ratio = 0.12 :=
  (C8_derived_ratios payloadA appA (by decide)).2.2 rfl

/-- C9: the bank-statement lookup turns any non-2xx response into a
`{status: "error", error: message}` value instead of raising, and a 2xx
response into `{status: "ok", statement}`; the fake bank answers 404 for
an unknown account, and the known account "123-456" yields an ok result
carrying the statement with balance 8100. -/
theorem C9_bank_lookup_shape :
    (∀ acct code reason,
       FakeBank.fetch_bank_statement acct (.httpError code reason)
         = { account_number := acct
             status := "error"
             error := some ("FakeBank returned HTTP " ++ toString code ++ ": " ++ reason)
             statement := none })
    ∧ (∀ acct st,
       FakeBank.fetch_bank_statement acct (.ok2xx st)
         = { account_number := acct
             status := "ok"
             error := none
             statement := some st })
    ∧ FakeBank.get_statement "999-999" = .httpError 404 "Not Found"
    ∧ (FakeBank.fetch_bank_statement "999-999"
        (FakeBank.get_statement "999-999")).status = "error"
    ∧ (FakeBank.fetch_bank_statement "123-456"
        (FakeBank.get_statement "123-456")).status = "ok"
    ∧ ((FakeBank.fetch_bank_statement "123-456"
        (FakeBank.get_statement "123-456")).statement.map FakeBank.Statement.balance)
        = some 8100 :=
  ⟨fun _ _ _ => rfl, fun _ _ => rfl, by decide, by decide, by decide, by decide⟩

/-- C7: a StartOrUpdate whose payload has a non-positive numeric field
fails with a ValidationError; the error is raised before any durable
operation (server.py builds the LoanApplication outside the try, before
the Temporal call), so no workflow instance is created, no run is started,
no decision activity is invoked: the system state is unchanged. -/
theorem C7_validation_failure (or : Oracle) (s : Sys) (p : RawPayload)
    (hbad : ¬(0 < p.annual_income ∧ 0 < p.requested_loan_amount
              ∧ 0 < p.property_value)) :
    model_validate p = .error "ValidationError: numeric fields must be greater than 0"
    ∧ applyCmd or s (.startProcessing p)
        = (s, .err "ValidationError: numeric fields must be greater than 0") := by
  have hv : model_validate p
      = .error "ValidationError: numeric fields must be greater than 0" := by
    rw [model_validate, if_neg hbad]
  exact ⟨hv, by simp [applyCmd, applyStart, hv]⟩

/-- C7 witness: the theorem applied to a payload with zero annual income. -/
theorem C7_validation_failure_witness :
    model_validate payloadBad
      = .error "ValidationError: numeric fields must be greater than 0"
    ∧ applyCmd oracleA Sys.init (.startProcessing payloadBad)
        = (Sys.init, .err "ValidationError: numeric fields must be greater than 0") :=
  C7_validation_failure oracleA Sys.init payloadBad (by decide)

/-- C3 (code bug): on a workflow whose `_application` is still unset, the
status query does NOT return an empty snapshot: the code evaluates
`self._application.application_id` with `_application = None`, which
raises AttributeError instead of returning. -/
theorem C3_status_raises_before_start :
    Machine.init.status
      = .error "AttributeError: NoneType object has no attribute application_id" := rfl

end LoanAgent

namespace LoanAgent

/-- C2 counterexample: in the Scenario-A run, with the supply_bank_account
update suspended at the human-decision wait (parked = 1, no final
decision) and recommendations already produced by two decision calls, the
status query answers `decision = none` — the snapshot does not carry the
last committed recommendation. -/
theorem C2_counterexample :
    (runTrace oracleA Sys.init traceQueryWhileSuspended).2
      = [ .updateResult (.recOut recReview), .suspended,
          .queryResult (.ok ⟨"APP_1", none⟩) ]
    ∧ (runTrace oracleA Sys.init traceQueryWhileSuspended).1.wf
      = some mSuspended :=
  ⟨by decide, by decide⟩

/-- C2 (amended): a status query issued while the supply_bank_account
update is suspended on the human-decision wait does not block, does not
raise, and does not mutate state, but its decision content is null: the
workflow never stores recommendations, so the decision field carries the
final decision or nothing. -/
theorem C2_query_while_suspended (or : Oracle) (s : Sys) (m : Machine)
    (a : LoanApplication) (hwf : s.wf = some m) (happ : m.application = some a)
    (_hpk : 0 < m.parked) (hfin : m.final_decision = none) :
    applyCmd or s .queryStatus
      = (s, .queryResult (.ok ⟨a.application_id, none⟩)) := by
  simp [applyCmd, applyQuery, hwf, Machine.status, happ, hfin]

/-- C2 witness: the amended theorem applied to the suspended Scenario-A
state. -/
theorem C2_query_while_suspended_witness :
    applyCmd oracleA sysSuspended .queryStatus
      = (sysSuspended, .queryResult (.ok ⟨"APP_1", none⟩)) :=
  C2_query_while_suspended oracleA sysSuspended mSuspended appA
    (by decide) (by decide) (by decide) (by decide)

/-- C5: for a supply_bank_account update issued while no human decision is
buffered: exactly one decision-activity call folds the bank-account
evidence prompt into the stored conversation history, then the update
suspends at the human-decision wait with no final decision recorded; when
a receive_human_decision signal arrives, exactly one more decision call
folds the human decision into the updated history, and its output is
recorded as the final decision and handed back, completing the workflow. -/
theorem C5_supply_update_order (or : Oracle) (s : Sys) (m : Machine)
    (acct d : String) (hwf : s.wf = some m) (hco : m.completed = false)
    (hhd : m.human_decision = none) :
    applyCmd or s (.supplyBankAccount acct)
      = ({ s with
             wf := some { m with
                     message_history := some (or s.calls.length).messages
                     parked := m.parked + 1 }
             calls := s.calls ++ [⟨m.message_history, .bankAccount acct⟩] },
         .suspended)
    ∧ applyCmd or (applyCmd or s (.supplyBankAccount acct)).1 (.signalHuman d)
      = ({ s with
             wf := some { m with
                     human_decision := some d
                     message_history := some (or s.calls.length).messages
                     final_decision := some (or (s.calls.length + 1)).output
                     completed := true
                     result := some (or (s.calls.length + 1)).output }
             calls := s.calls ++
               [⟨m.message_history, .bankAccount acct⟩,
                ⟨some (or s.calls.length).messages, .humanDecision d⟩] },
         .ack (some (or (s.calls.length + 1)).output)) := by
  constructor
  · simp [applyCmd, applySupply, callAgent, hwf, hco, hhd]
  · simp [applyCmd, applySupply, applySignal, callAgent, settle, hwf, hco, hhd]

/-- C5 witness: the theorem applied to the started Scenario-A state. -/
theorem C5_supply_update_order_witness :
    applyCmd oracleA sysStarted (.supplyBankAccount "123-456")
      = ({ sysStarted with
             wf := some { mStarted with
                     message_history := some (oracleA sysStarted.calls.length).messages
                     parked := mStarted.parked + 1 }
             calls := sysStarted.calls
               ++ [⟨mStarted.message_history, .bankAccount "123-456"⟩] },
         .suspended)
    ∧ applyCmd oracleA (applyCmd oracleA sysStarted (.supplyBankAccount "123-456")).1
        (.signalHuman "approve")
      = ({ sysStarted with
             wf := some { mStarted with
                     human_decision := some "approve"
                     message_history := some (oracleA sysStarted.calls.length).messages
                     final_decision := some (oracleA (sysStarted.calls.length + 1)).output
                     completed := true
                     result := some (oracleA (sysStarted.calls.length + 1)).output }
             calls := sysStarted.calls ++
               [⟨mStarted.message_history, .bankAccount "123-456"⟩,
                ⟨some (oracleA sysStarted.calls.length).messages,
                 .humanDecision "approve"⟩] },
         .ack (some (oracleA (sysStarted.calls.length + 1)).output)) :=
  C5_supply_update_order oracleA sysStarted mStarted "123-456" "approve"
    (by decide) (by decide) (by decide)

/-- C6: a receive_human_decision signal delivered before the
supply_bank_account update reaches its waiting point is not lost: it is
buffered into the decision slot with no decision call made; when the
update later reaches the wait, the wait condition observes the buffered
decision and the update proceeds immediately to the final decision
without ever parking. -/
theorem C6_early_signal_buffered (or : Oracle) (s : Sys) (m : Machine)
    (d acct : String) (hwf : s.wf = some m) (hco : m.completed = false)
    (hpk : m.parked = 0) :
    applyCmd or s (.signalHuman d)
      = ({ s with wf := some { m with human_decision := some d } }, .ack none)
    ∧ applyCmd or (applyCmd or s (.signalHuman d)).1 (.supplyBankAccount acct)
      = ({ s with
             wf := some { m with
                     human_decision := some d
                     message_history := some (or s.calls.length).messages
                     final_decision := some (or (s.calls.length + 1)).output
                     completed := true
                     result := some (or (s.calls.length + 1)).output }
             calls := s.calls ++
               [⟨m.message_history, .bankAccount acct⟩,
                ⟨some (or s.calls.length).messages, .humanDecision d⟩] },
         .updateResult (or (s.calls.length + 1)).output) := by
  constructor
  · simp [applyCmd, applySignal, hwf, hco, hpk]
  · simp [applyCmd, applySignal, applySupply, callAgent, settle, hwf, hco, hpk]

/-- C6 witness: the theorem applied to the started Scenario-A state. -/
theorem C6_early_signal_buffered_witness :
    applyCmd oracleA sysStarted (.signalHuman "approve")
      = ({ sysStarted with
             wf := some { mStarted with human_decision := some "approve" } },
         .ack none)
    ∧ applyCmd oracleA (applyCmd oracleA sysStarted (.signalHuman "approve")).1
        (.supplyBankAccount "123-456")
      = ({ sysStarted with
             wf := some { mStarted with
                     human_decision := some "approve"
                     message_history := some (oracleA sysStarted.calls.length).messages
                     final_decision := some (oracleA (sysStarted.calls.length + 1)).output
                     completed := true
                     result := some (oracleA (sysStarted.calls.length + 1)).output }
             calls := sysStarted.calls ++
               [⟨mStarted.message_history, .bankAccount "123-456"⟩,
                ⟨some (oracleA sysStarted.calls.length).messages,
                 .humanDecision "approve"⟩] },
         .updateResult (oracleA (sysStarted.calls.length + 1)).output) :=
  C6_early_signal_buffered oracleA sysStarted mStarted "approve" "123-456"
    (by decide) (by decide) (by decide)

/-- C10: the receive_human_decision handler stores whatever string
arrives, unconditionally overwriting any prior decision and performing no
validation against "approve"/"reject"; if no update is parked the value is
merely stored, and if one is parked at the wait the signal releases it
(one more decision call runs and its output becomes the final decision). -/
theorem C10_signal_unvalidated_overwrite (or : Oracle) (s : Sys) (m : Machine)
    (d : String) (hwf : s.wf = some m) (hco : m.completed = false) :
    (∃ m1, (applyCmd or s (.signalHuman d)).1.wf = some m1
           ∧ m1.human_decision = some d)
    ∧ (m.parked = 0 →
        applyCmd or s (.signalHuman d)
          = ({ s with wf := some { m with human_decision := some d } }, .ack none))
    ∧ (0 < m.parked →
        (applyCmd or s (.signalHuman d)).1.calls
            = s.calls ++ [⟨m.message_history, .humanDecision d⟩]
        ∧ (applyCmd or s (.signalHuman d)).2 = .ack (some (or s.calls.length).output)
        ∧ (applyCmd or s (.signalHuman d)).1.wf
            = some { m with
                human_decision := some d
                final_decision := some (or s.calls.length).output
                parked := m.parked - 1
                completed := true
                result := some (or s.calls.length).output }) := by
  by_cases hpk : m.parked = 0
  · refine ⟨⟨{ m with human_decision := some d }, ?_, rfl⟩, fun _ => ?_, fun h => ?_⟩
    · simp [applyCmd, applySignal, hwf, hco, hpk]
    · simp [applyCmd, applySignal, hwf, hco, hpk]
    · omega
  · refine ⟨⟨{ m with
        human_decision := some d
        final_decision := some (or s.calls.length).output
        parked := m.parked - 1
        completed := true
        result := some (or s.calls.length).output }, ?_, rfl⟩,
      fun h => absurd h hpk, fun _ => ⟨?_, ?_, ?_⟩⟩ <;>
      simp [applyCmd, applySignal, callAgent, settle, hwf, hco, hpk]

/-- C10 witness: the theorem applied twice with the arbitrary string
"frobnicate": once on a state with a prior buffered decision "approve"
(overwritten), once on the suspended state (released). -/
theorem C10_signal_unvalidated_overwrite_witness :
    ((∃ m1, (applyCmd oracleA sysSignalled (.signalHuman "frobnicate")).1.wf = some m1
            ∧ m1.human_decision = some "frobnicate")
     ∧ (mSignalled.parked = 0 →
         applyCmd oracleA sysSignalled (.signalHuman "frobnicate")
           = ({ sysSignalled with
                  wf := some { mSignalled with human_decision := some "frobnicate" } },
              .ack none)))
    ∧ (0 < mSuspended.parked →
        (applyCmd oracleA sysSuspended (.signalHuman "frobnicate")).1.calls
            = sysSuspended.calls
              ++ [⟨mSuspended.message_history, .humanDecision "frobnicate"⟩]
        ∧ (applyCmd oracleA sysSuspended (.signalHuman "frobnicate")).2
            = .ack (some (oracleA sysSuspended.calls.length).output)
        ∧ (applyCmd oracleA sysSuspended (.signalHuman "frobnicate")).1.wf
            = some { mSuspended with
                human_decision := some "frobnicate"
                final_decision := some (oracleA sysSuspended.calls.length).output
                parked := mSuspended.parked - 1
                completed := true
                result := some (oracleA sysSuspended.calls.length).output }) :=
  ⟨⟨(C10_signal_unvalidated_overwrite oracleA sysSignalled mSignalled "frobnicate"
      (by decide) (by decide)).1,
    (C10_signal_unvalidated_overwrite oracleA sysSignalled mSignalled "frobnicate"
      (by decide) (by decide)).2.1⟩,
   (C10_signal_unvalidated_overwrite oracleA sysSuspended mSuspended "frobnicate"
      (by decide) (by decide)).2.2⟩

end LoanAgent

namespace LoanAgent

/-- C1 counterexample: after the full Scenario-A run a FinalResult exists
(three decision calls made, one run started); repeating the StartOrUpdate
with the same identifier then makes a FOURTH decision-activity call,
starts a second workflow run, and returns a fresh recommendation — not
the existing terminal result. -/
theorem C1_counterexample :
    (runTrace oracleA Sys.init (traceRepeatStart.take 3)).1.wf.map
        Machine.final_decision = some (some (.finOut finApproved))
    ∧ (runTrace oracleA Sys.init (traceRepeatStart.take 3)).1.calls.length = 3
    ∧ (runTrace oracleA Sys.init (traceRepeatStart.take 3)).1.runsStarted = 1
    ∧ (runTrace oracleA Sys.init traceRepeatStart).1.calls.length = 4
    ∧ (runTrace oracleA Sys.init traceRepeatStart).1.runsStarted = 2
    ∧ (runTrace oracleA Sys.init traceRepeatStart).2.getLast?
        = some (.updateResult (.recOut recReview)) :=
  ⟨by decide, by decide, by decide, by decide, by decide, by decide⟩

/-- C1 (amended): while the workflow run is live, a second StartOrUpdate
with the same identifier attaches to the existing run (USE_EXISTING — the
run count does not change, so no second instance exists), but it
re-executes start_processing, making a new decision-activity call and
returning that call's fresh output rather than the stored result; once
the run has completed with a FinalResult, a further StartOrUpdate starts
a new run and re-processes from scratch — again a new decision call —
instead of returning the terminal result. -/
theorem C1_start_not_idempotent (or : Oracle) (s : Sys) (m : Machine)
    (p : RawPayload) (a : LoanApplication)
    (hwf : s.wf = some m) (hv : model_validate p = .ok a) :
    (m.completed = false →
        (applyCmd or s (.startProcessing p)).1.runsStarted = s.runsStarted
        ∧ (applyCmd or s (.startProcessing p)).1.calls.length = s.calls.length + 1
        ∧ (applyCmd or s (.startProcessing p)).2
            = .updateResult (or s.calls.length).output)
    ∧ (m.completed = true →
        (applyCmd or s (.startProcessing p)).1.runsStarted = s.runsStarted + 1
        ∧ (applyCmd or s (.startProcessing p)).1.calls.length = s.calls.length + 1
        ∧ (applyCmd or s (.startProcessing p)).2
            = .updateResult (or s.calls.length).output) := by
  constructor <;> intro hco <;>
    simp [applyCmd, applyStart, callAgent, settle, hwf, hco, hv]

/-- C1 witness: the amended theorem applied to the live started state and
to the completed state of Scenario A. -/
theorem C1_start_not_idempotent_witness :
    (mStarted.completed = false →
        (applyCmd oracleA sysStarted (.startProcessing payloadA)).1.runsStarted
            = sysStarted.runsStarted
        ∧ (applyCmd oracleA sysStarted (.startProcessing payloadA)).1.calls.length
            = sysStarted.calls.length + 1
        ∧ (applyCmd oracleA sysStarted (.startProcessing payloadA)).2
            = .updateResult (oracleA sysStarted.calls.length).output)
    ∧ (mFinal.completed = true →
        (applyCmd oracleA sysFinal (.startProcessing payloadA)).1.runsStarted
            = sysFinal.runsStarted + 1
        ∧ (applyCmd oracleA sysFinal (.startProcessing payloadA)).1.calls.length
            = sysFinal.calls.length + 1
        ∧ (applyCmd oracleA sysFinal (.startProcessing payloadA)).2
            = .updateResult (oracleA sysFinal.calls.length).output) :=
  ⟨(C1_start_not_idempotent oracleA sysStarted mStarted payloadA appA
      (by decide) (by decide)).1,
   (C1_start_not_idempotent oracleA sysFinal mFinal payloadA appA
      (by decide) (by decide)).2⟩

end LoanAgent

namespace LoanAgent

theorem not_completed_final_none {s : Sys} {m : Machine} (h : Inv s)
    (hwf : s.wf = some m) (hco : m.completed = false) :
    m.final_decision = none := by
  have hiff := (h m hwf).1
  cases hfd : m.final_decision with
  | none => rfl
  | some v =>
    have hc : m.completed = true := hiff.mpr (by simp [hfd])
    rw [hc] at hco
    cases hco

theorem inv_init : Inv Sys.init := by
  intro m hm
  simp [Sys.init] at hm

theorem inv_preserved (or : Oracle) (s : Sys) (c : Cmd) (h : Inv s) :
    Inv (applyCmd or s c).1 := by
  cases c with
  | startProcessing p =>
    intro m' hm'
    cases hval : model_validate p with
    | error e =>
      have e1 : (applyCmd or s (.startProcessing p)).1 = s := by
        simp [applyCmd, applyStart, hval]
      rw [e1] at hm' ⊢
      exact h m' hm'
    | ok a =>
      cases hswf : s.wf with
      | none =>
        have e1 : (applyCmd or s (.startProcessing p)).1
            = { s with runsStarted := s.runsStarted + 1
                       wf := some { application := some a
                                    message_history := some (or s.calls.length).messages }
                       calls := s.calls ++ [⟨none, .applicationJson a⟩] } := by
          simp [applyCmd, applyStart, callAgent, settle, hval, hswf, Machine.init]
        rw [e1] at hm' ⊢
        simp only [Option.some.injEq] at hm'
        subst hm'
        exact ⟨by simp, by simp, fun v hv => by simp at hv⟩
      | some m =>
        cases hco : m.completed with
        | true =>
          have e1 : (applyCmd or s (.startProcessing p)).1
              = { s with runsStarted := s.runsStarted + 1
                         wf := some { application := some a
                                      message_history := some (or s.calls.length).messages }
                         calls := s.calls ++ [⟨none, .applicationJson a⟩] } := by
            simp [applyCmd, applyStart, callAgent, settle, hval, hswf, hco, Machine.init]
          rw [e1] at hm' ⊢
          simp only [Option.some.injEq] at hm'
          subst hm'
          exact ⟨by simp, by simp, fun v hv => by simp at hv⟩
        | false =>
          have hfin : m.final_decision = none := not_completed_final_none h hswf hco
          have e1 : (applyCmd or s (.startProcessing p)).1
              = { s with wf := some { m with
                             application := some a
                             message_history := some (or s.calls.length).messages }
                         calls := s.calls ++ [⟨none, .applicationJson a⟩] } := by
            simp [applyCmd, applyStart, callAgent, settle, hval, hswf, hco, hfin]
          rw [e1] at hm' ⊢
          simp only [Option.some.injEq] at hm'
          subst hm'
          exact ⟨by simp [hco, hfin], by simp [hco], fun v hv => by simp [hfin] at hv⟩
  | supplyBankAccount acct =>
    intro m' hm'
    cases hswf : s.wf with
    | none =>
      have e1 : (applyCmd or s (.supplyBankAccount acct)).1 = s := by
        simp [applyCmd, applySupply, hswf]
      rw [e1] at hm' ⊢
      exact h m' hm'
    | some m =>
      cases hco : m.completed with
      | true =>
        have e1 : (applyCmd or s (.supplyBankAccount acct)).1 = s := by
          simp [applyCmd, applySupply, hswf, hco]
        rw [e1] at hm' ⊢
        exact h m' hm'
      | false =>
        have hfin : m.final_decision = none := not_completed_final_none h hswf hco
        cases hhd : m.human_decision with
        | none =>
          have e1 : (applyCmd or s (.supplyBankAccount acct)).1
              = { s with wf := some { m with
                             message_history := some (or s.calls.length).messages
                             parked := m.parked + 1 }
                         calls := s.calls ++ [⟨m.message_history, .bankAccount acct⟩] } := by
            simp [applyCmd, applySupply, callAgent, settle, hswf, hco, hhd]
          rw [e1] at hm' ⊢
          simp only [Option.some.injEq] at hm'
          subst hm'
          exact ⟨by simp [hco, hfin], by simp [hco], fun v hv => by simp [hfin] at hv⟩
        | some d =>
          have e1 : (applyCmd or s (.supplyBankAccount acct)).1
              = { s with wf := some { m with
                             message_history := some (or s.calls.length).messages
                             final_decision := some (or (s.calls.length + 1)).output
                             completed := true
                             result := some (or (s.calls.length + 1)).output }
                         calls := s.calls ++
                           [⟨m.message_history, .bankAccount acct⟩,
                            ⟨some (or s.calls.length).messages, .humanDecision d⟩] } := by
            simp [applyCmd, applySupply, callAgent, settle, hswf, hco, hhd]
          rw [e1] at hm' ⊢
          simp only [Option.some.injEq] at hm'
          subst hm'
          refine ⟨by simp, by simp, fun v hv => ?_⟩
          exact ⟨d, by simp [hhd], some (or s.calls.length).messages, by simp⟩
  | signalHuman d =>
    intro m' hm'
    cases hswf : s.wf with
    | none =>
      have e1 : (applyCmd or s (.signalHuman d)).1 = s := by
        simp [applyCmd, applySignal, hswf]
      rw [e1] at hm' ⊢
      exact h m' hm'
    | some m =>
      cases hco : m.completed with
      | true =>
        have e1 : (applyCmd or s (.signalHuman d)).1 = s := by
          simp [applyCmd, applySignal, hswf, hco]
        rw [e1] at hm' ⊢
        exact h m' hm'
      | false =>
        have hfin : m.final_decision = none := not_completed_final_none h hswf hco
        cases hpk : m.parked with
        | zero =>
          have e1 : (applyCmd or s (.signalHuman d)).1
              = { s with wf := some { m with human_decision := some d } } := by
            simp [applyCmd, applySignal, hswf, hco, hpk]
          rw [e1] at hm' ⊢
          simp only [Option.some.injEq] at hm'
          subst hm'
          exact ⟨by simp [hco, hfin], by simp [hco], fun v hv => by simp [hfin] at hv⟩
        | succ k =>
          have e1 : (applyCmd or s (.signalHuman d)).1
              = { s with wf := some { m with
                             human_decision := some d
                             final_decision := some (or s.calls.length).output
                             parked := k
                             completed := true
                             result := some (or s.calls.length).output }
                         calls := s.calls ++ [⟨m.message_history, .humanDecision d⟩] } := by
            simp [applyCmd, applySignal, callAgent, settle, hswf, hco, hpk]
          rw [e1] at hm' ⊢
          simp only [Option.some.injEq] at hm'
          subst hm'
          refine ⟨by simp, by simp, fun v hv => ?_⟩
          exact ⟨d, by simp, m.message_history, by simp⟩
  | queryStatus =>
    intro m' hm'
    have e1 : (applyCmd or s .queryStatus).1 = s := by
      cases hswf : s.wf <;> simp [applyCmd, applyQuery, hswf]
    rw [e1] at hm' ⊢
    exact h m' hm'

theorem reachable_inv {or : Oracle} {s : Sys} (h : Reachable or s) : Inv s := by
  induction h with
  | init => exact inv_init
  | step c _ ih => exact inv_preserved _ _ c ih

end LoanAgent

namespace LoanAgent

/-- C4: in every reachable state, the workflow run has completed exactly
when the final decision is set; the run method's return value is exactly
the final decision (never returned while unset); a set final decision
presupposes a received human decision that was folded into a
decision-activity call; and once set within a run the final decision is
immutable — any command that does not start a new workflow run leaves the
attached machine untouched. -/
theorem C4_final_result_once (or : Oracle) (s : Sys) (hr : Reachable or s)
    (m : Machine) (hwf : s.wf = some m) :
    (m.completed = true ↔ m.final_decision.isSome = true)
    ∧ (m.completed = true → m.result = m.final_decision)
    ∧ (∀ v, m.final_decision = some v →
        ∃ d, m.human_decision = some d
          ∧ ∃ hist, (⟨hist, .humanDecision d⟩ : AgentCall) ∈ s.calls)
    ∧ (∀ c v, m.final_decision = some v →
        (applyCmd or s c).1.runsStarted = s.runsStarted →
        (applyCmd or s c).1.wf = some m) := by
  have hinv := reachable_inv hr
  obtain ⟨h1, h2, h3⟩ := hinv m hwf
  refine ⟨h1, h2, h3, ?_⟩
  intro c v hv hrun
  have hco : m.completed = true := h1.mpr (by simp [hv])
  cases c with
  | startProcessing p =>
    cases hval : model_validate p with
    | error e => simp [applyCmd, applyStart, hval, hwf]
    | ok a =>
      exfalso
      have hbump : (applyCmd or s (.startProcessing p)).1.runsStarted
          = s.runsStarted + 1 := by
        simp [applyCmd, applyStart, callAgent, settle, hval, hwf, hco]
      rw [hrun] at hbump
      omega
  | supplyBankAccount acct => simp [applyCmd, applySupply, hwf, hco]
  | signalHuman d => simp [applyCmd, applySignal, hwf, hco]
  | queryStatus => simp [applyCmd, applyQuery, hwf]

/-- C4 witness: the theorem applied to the completed Scenario-A state. -/
theorem C4_final_result_once_witness :
    (mFinal.completed = true ↔ mFinal.final_decision.isSome = true)
    ∧ mFinal.result = mFinal.final_decision
    ∧ (∃ d, mFinal.human_decision = some d
          ∧ ∃ hist, (⟨hist, .humanDecision d⟩ : AgentCall) ∈ sysFinal.calls)
    ∧ (applyCmd oracleA sysFinal (.supplyBankAccount "999")).1.wf = some mFinal := by
  have e : sysFinal
      = (applyCmd oracleA (applyCmd oracleA (applyCmd oracleA Sys.init
          (.startProcessing payloadA)).1 (.supplyBankAccount "123-456")).1
          (.signalHuman "approve")).1 := rfl
  have hre : Reachable oracleA sysFinal := by
    rw [e]
    exact .step _ (.step _ (.step _ .init))
  have h := C4_final_result_once oracleA sysFinal hre mFinal (by decide)
  exact ⟨h.1, h.2.1 (by decide),
         h.2.2.1 (.finOut finApproved) (by decide),
         h.2.2.2 (.supplyBankAccount "999") (.finOut finApproved) (by decide) (by decide)⟩

end LoanAgent
